import Mathlib

/-!
Verification model of the FAL adapter layer in
`src/credentials/PollinationsApi.credentials.ts` (class `BaseFalModel`):
the endpoint-family base-path derivation `getStatusBasePath`, the lazy
credential resolution `ensureApiKey`, and the asynchronous
submit/poll/result state machine `executeAsync`.

Modelling conventions:
- JS strings are Lean `String`s; `endpoint.includes(sub)` and the
  anchored regexes `^(\/fal-ai\/...)` (which match exactly when the
  string starts with the literal prefix text) are modelled on the
  underlying character lists, so that every test is computable.
- A JSON payload is modelled by the fields the adapter inspects:
  `request_id`, `status`, `error` as optional strings, and the result
  fields `images` / `video` / `output` as Booleans meaning "field
  present and truthy".
- The HTTP transport is an oracle `Nat → Outcome` giving, for the n-th
  HTTP call of one invocation, either a parsed JSON payload or a thrown
  transport error carrying `err.response?.statusCode`.
- The unbounded `while (true)` polling loop is embedded with explicit
  fuel: one unit of fuel per loop iteration; exhausted fuel yields the
  distinguished `outOfFuel` marker (the source loop would keep going).
- Thrown `NodeOperationError`s are modelled by their message text; the
  long diagnostic messages are abbreviated to their leading sentences.
-/

namespace FalAdapter

/-- Character-list test modelling `pre` being an initial segment of `s`
(the behaviour of `String.prototype.startsWith` and of an anchored
regex literal). -/
def strStarts (s pre : String) : Bool :=
  List.isPrefixOf pre.data s.data

/-- Character-list test modelling `s.includes(sub)` from JS: `sub`
occurs contiguously somewhere in `s`. -/
def strIncludes (s sub : String) : Bool :=
  List.isPrefixOf sub.data s.data ||
    match s.data with
    | [] => false
    | _ :: rest => strIncludesAux sub.data rest
where
  /-- Scan the tail positions of the haystack. -/
  strIncludesAux (sub : List Char) : List Char → Bool
    | [] => List.isPrefixOf sub []
    | c :: rest => List.isPrefixOf sub (c :: rest) || strIncludesAux sub rest

/-- Model of `BaseFalModel.getStatusBasePath`. Each source branch is
`if (endpoint.includes(seg)) { const match = endpoint.match(/^(pre)/);
if (match) return match[1]; }`: the branch returns `pre` exactly when
the containment test and the anchored prefix match both succeed, and
otherwise falls through to the next family check, which the flattened
conjunctions below reproduce.  The WAN branch uses `startsWith`
directly in the source. -/
def getStatusBasePath (endpoint : String) : String :=
  if strIncludes endpoint "/kling-video/" && strStarts endpoint "/fal-ai/kling-video" then
    "/fal-ai/kling-video"
  else if strStarts endpoint "/wan/v2.6/" then
    "/wan/v2.6"
  else if strIncludes endpoint "/z-image/" && strStarts endpoint "/fal-ai/z-image" then
    "/fal-ai/z-image"
  else if strIncludes endpoint "/nano-banana-pro/" && strStarts endpoint "/fal-ai/nano-banana-pro" then
    "/fal-ai/nano-banana-pro"
  else if strIncludes endpoint "/bytedance/" && strStarts endpoint "/fal-ai/bytedance" then
    "/fal-ai/bytedance"
  else
    endpoint

/-- One endpoint family of the spec: a recogniser for the family
pattern plus the base path the pattern captures. -/
structure FalFamily where
  applies : String → Bool
  capture : String

/-- Modelled from the spec (section 4.2): the ordered list of known
family patterns, highest priority first.  A family pattern matches
when its distinguishing path segment occurs and the canonical family
path is captured at the start of the endpoint. -/
def falFamilies : List FalFamily :=
  [⟨fun e => strIncludes e "/kling-video/" && strStarts e "/fal-ai/kling-video", "/fal-ai/kling-video"⟩,
   ⟨fun e => strStarts e "/wan/v2.6/", "/wan/v2.6"⟩,
   ⟨fun e => strIncludes e "/z-image/" && strStarts e "/fal-ai/z-image", "/fal-ai/z-image"⟩,
   ⟨fun e => strIncludes e "/nano-banana-pro/" && strStarts e "/fal-ai/nano-banana-pro", "/fal-ai/nano-banana-pro"⟩,
   ⟨fun e => strIncludes e "/bytedance/" && strStarts e "/fal-ai/bytedance", "/fal-ai/bytedance"⟩]

/-- First family of the ordered list whose pattern matches the endpoint. -/
def firstFamilyMatch (endpoint : String) : List FalFamily → Option String
  | [] => none
  | f :: fs => if f.applies endpoint then some f.capture else firstFamilyMatch endpoint fs

/-- Modelled from the spec (section 4.2): test the endpoint against
the ordered pattern list; on first match return the captured family
path, otherwise return the endpoint unchanged. -/
def deriveStatusBasePathSpec (endpoint : String) : String :=
  match firstFamilyMatch endpoint falFamilies with
  | some p => p
  | none => endpoint

/-- C4: `getStatusBasePath` is a pure total function agreeing with the
spec-side deriver: on the first family whose pattern applies it
returns exactly the captured family path, and when no pattern applies
it returns the input unchanged. -/
theorem getStatusBasePath_spec (endpoint : String) :
    getStatusBasePath endpoint = deriveStatusBasePathSpec endpoint ∧
    (firstFamilyMatch endpoint falFamilies = none →
      getStatusBasePath endpoint = endpoint) := by
  have h : getStatusBasePath endpoint = deriveStatusBasePathSpec endpoint := by
    unfold getStatusBasePath deriveStatusBasePathSpec
    simp only [falFamilies, firstFamilyMatch]
    split_ifs <;> simp_all
  refine ⟨h, fun hn => ?_⟩
  rw [h]
  unfold deriveStatusBasePathSpec
  rw [hn]

/-- JS runtime value of the `apiKey` field of the credential object,
restricted to the shapes `ensureApiKey` distinguishes: absent
(`undefined`), `null`, a string, a number (modelled as an integer),
a boolean, or some other object. -/
inductive JsVal where
  | undef
  | vnull
  | vstr (s : String)
  | vnum (n : Int)
  | vbool (b : Bool)
  | vobj
deriving DecidableEq, Repr

/-- JS truthiness test `!v` (negated): `undefined`, `null`, the empty
string, the number zero and `false` are falsy. -/
def jsFalsy : JsVal → Bool
  | JsVal.undef => true
  | JsVal.vnull => true
  | JsVal.vstr s => s = ""
  | JsVal.vnum n => n = 0
  | JsVal.vbool b => !b
  | JsVal.vobj => false

/-- JS `typeof v` for the modelled value shapes (`typeof null` is
`"object"`). -/
def jsTypeof : JsVal → String
  | JsVal.undef => "undefined"
  | JsVal.vnull => "object"
  | JsVal.vstr _ => "string"
  | JsVal.vnum _ => "number"
  | JsVal.vbool _ => "boolean"
  | JsVal.vobj => "object"

/-- JS `String(v)` for the two value shapes that reach the conversion
(strings and numbers; the type check has already excluded the rest). -/
def jsToString : JsVal → String
  | JsVal.vstr s => s
  | JsVal.vnum n => toString n
  | v => jsTypeof v

/-- JS `String.prototype.trim`: drop leading and trailing whitespace
characters. -/
def jsTrim (s : String) : String :=
  ⟨(((s.data.dropWhile Char.isWhitespace).reverse.dropWhile Char.isWhitespace).reverse)⟩

/-- Credential object returned by the store: its key list
(`Object.keys(credentials)`) and the value of its `apiKey` field
(`JsVal.undef` when the field is absent). -/
structure CredObj where
  keys : List String
  apiKey : JsVal
deriving DecidableEq, Repr

/-- Result of the credential-store lookup performed by
`getCredentialsAsync`: a falsy value, a non-object value, or a
credential object. -/
inductive StoreResult where
  | absent
  | nonObject (typeName : String)
  | obj (credentials : CredObj)
deriving DecidableEq, Repr

/-- Leading sentence of the error thrown by `getCredentialsAsync` when
the store yields nothing usable. -/
def credsNotFoundMsg : String :=
  "FAL API credentials not found. Please select the FAL API credential in the node settings."

/-- Leading sentence of the empty-credential-object error. -/
def credsEmptyMsg : String :=
  "FAL API credentials are empty. The credential was selected but contains no data."

/-- Leading part of the missing-apiKey-field error, including the
`availableKeys` listing the source interpolates into it. -/
def apiKeyRequiredMsg (keys : List String) : String :=
  "FAL API Key is required. Found keys in credentials: " ++
    (if 0 < keys.length then String.intercalate ", " keys else "none") ++
    ". Expected apiKey."

/-- Leading part of the wrong-type error for the `apiKey` field. -/
def apiKeyTypeMsg (v : JsVal) : String :=
  "Invalid FAL API Key type. Expected string or number, got " ++ jsTypeof v ++ "."

/-- Leading sentence of the blank-after-trim error. -/
def apiKeyEmptyMsg : String :=
  "FAL API Key is empty. Please enter a valid API key in your credential configuration."

/-- Model of `BaseFalModel.ensureApiKey`, as a function of the cached
`this.apiKey` field (initially `null`, modelled as `none`) and of what
the credential store returns.  The result is the error message of the
thrown `NodeOperationError`, or the new cache value paired with the
number of credential-store lookups the call performed.  The source
returns immediately when the cache is set; otherwise
`getCredentialsAsync` performs the single lookup and rejects falsy or
non-object store results with the not-found error, after which
`ensureApiKey` checks in order: empty key set, falsy `apiKey` field,
field type, and blank trimmed key, finally caching the trimmed key. -/
def ensureApiKey (cached : Option String) (store : StoreResult) :
    Except String (Option String × Nat) :=
  match cached with
  | some k => Except.ok (some k, 0)
  | none =>
    match store with
    | StoreResult.absent => Except.error credsNotFoundMsg
    | StoreResult.nonObject _ => Except.error credsNotFoundMsg
    | StoreResult.obj credentials =>
      if credentials.keys.length = 0 then
        Except.error credsEmptyMsg
      else if jsFalsy credentials.apiKey then
        Except.error (apiKeyRequiredMsg credentials.keys)
      else if jsTypeof credentials.apiKey ≠ "string" ∧ jsTypeof credentials.apiKey ≠ "number" then
        Except.error (apiKeyTypeMsg credentials.apiKey)
      else
        let apiKeyString := jsTrim (jsToString credentials.apiKey)
        if apiKeyString = "" then
          Except.error apiKeyEmptyMsg
        else
          Except.ok (some apiKeyString, 1)

/-- C6: `ensureApiKey` is idempotent per adapter instance.  A first
successful call from the empty cache performs exactly one
credential-store lookup and caches a key; any subsequent call with
that cache is a no-op: it performs zero lookups, leaves the cache
unchanged, and succeeds regardless of what the store would now
return. -/
theorem ensureApiKey_idempotent (store store2 : StoreResult)
    (c1 : Option String) (n1 : Nat)
    (h : ensureApiKey none store = Except.ok (c1, n1)) :
    n1 = 1 ∧ (∃ k, c1 = some k) ∧
      ensureApiKey c1 store2 = Except.ok (c1, 0) := by
  unfold ensureApiKey at h
  cases store with
  | absent => exact absurd h (by simp)
  | nonObject t => exact absurd h (by simp)
  | obj credentials =>
    simp only at h
    split_ifs at h with h1 h2 h3 h4
    cases h
    exact ⟨rfl, ⟨jsTrim (jsToString credentials.apiKey), rfl⟩, rfl⟩

/-- Concrete credential store used to witness C6: a one-key credential
object whose `apiKey` is the string `" sk1 "`. -/
def storeW : StoreResult :=
  StoreResult.obj ⟨["apiKey"], JsVal.vstr " sk1 "⟩

/-- Witness for C6 at the concrete store `storeW`: the first call
returns the trimmed cached key with one lookup, and the theorem then
yields that the second call is a lookup-free no-op. -/
theorem ensureApiKey_idempotent_witness :
    (1 : Nat) = 1 ∧ (∃ k, (some "sk1" : Option String) = some k) ∧
      ensureApiKey (some "sk1") storeW = Except.ok (some "sk1", 0) :=
  ensureApiKey_idempotent storeW storeW (some "sk1") 1 (by rfl)

/-- C10: every falsy `apiKey` value is rejected with the
missing-field error before the type check runs; in particular the
number `0` and the empty string, although `number` is an accepted key
type, are reported as a missing key. -/
theorem ensureApiKey_falsy_missing (credentials : CredObj)
    (hk : credentials.keys.length ≠ 0)
    (hf : jsFalsy credentials.apiKey = true) :
    ensureApiKey none (StoreResult.obj credentials) =
      Except.error (apiKeyRequiredMsg credentials.keys) := by
  unfold ensureApiKey
  simp [hk, hf]

/-- Witness for C10: a credential object carrying the number `0` as
its `apiKey` is reported with the missing-key error. -/
theorem ensureApiKey_falsy_missing_witness :
    ensureApiKey none (StoreResult.obj ⟨["apiKey"], JsVal.vnum 0⟩) =
      Except.error (apiKeyRequiredMsg ["apiKey"]) :=
  ensureApiKey_falsy_missing ⟨["apiKey"], JsVal.vnum 0⟩ (by decide) (by decide)

/-- JSON payload of an HTTP response, restricted to the fields the
async state machine inspects: `request_id`, `status` and `error` as
optional strings (`none` for an absent or null field), and the result
fields `images`, `video`, `output` as "present and truthy" flags. -/
structure ApiPayload where
  request_id : Option String
  status : Option String
  error : Option String
  images : Bool
  video : Bool
  output : Bool
deriving DecidableEq, Repr

/-- Outcome of one HTTP call as seen by `executeAsync`: a parsed JSON
payload, or a thrown transport error whose `err.response?.statusCode`
is the given optional code (`none` when the error has no response). -/
inductive Outcome where
  | ok (payload : ApiPayload)
  | httpError (statusCode : Option Nat)
deriving DecidableEq, Repr

/-- One HTTP call issued by the adapter: its method and full URL. -/
structure Call where
  method : String
  url : String
deriving DecidableEq, Repr

/-- Terminal result of the modelled `executeAsync` run: the raw result
payload handed to `processAsyncResponse`, a thrown
`NodeOperationError` message, a propagated transport error, or the
fuel bound of the embedding being reached while the source loop would
still be running. -/
inductive ExecResult where
  | success (result : ApiPayload)
  | failure (message : String)
  | transportError (statusCode : Option Nat)
  | outOfFuel
deriving DecidableEq, Repr

/-- Fields of `ModelConfig` that `executeAsync` reads. -/
structure ModelConfig where
  displayName : String
  endpoint : String
  supportsAsync : Bool
deriving DecidableEq, Repr

/-- Value of `this.asyncBaseUrl` in `BaseFalModel`. -/
def asyncBaseUrl : String := "https://queue.fal.run"

/-- Status polling URL
`{asyncBase}{statusBasePath}/requests/{requestId}/status`. -/
def statusUrlOf (statusBasePath requestId : String) : String :=
  asyncBaseUrl ++ statusBasePath ++ "/requests/" ++ requestId ++ "/status"

/-- Plain result URL `{asyncBase}{statusBasePath}/requests/{requestId}`. -/
def resultUrlOf (statusBasePath requestId : String) : String :=
  asyncBaseUrl ++ statusBasePath ++ "/requests/" ++ requestId

/-- Model of the `while (true)` polling loop of
`BaseFalModel.executeAsync`.  Arguments: the transport oracle `t`
(indexed by the number of HTTP calls already made in this invocation),
the computed status base path and request id, the remaining fuel (one
unit per loop iteration), and the index `k` of the next HTTP call.
Returns the list of HTTP calls the loop issues, in order, together
with its terminal result.  Each iteration GETs the status URL; a 405
transport error reroutes to a GET of the plain result URL, returning
its payload when a truthy `video`, `images` or `output` field is
present, continuing the loop when the probe fails with 404 or 422 or
carries no result field, and propagating any other probe error; any
non-405 status-poll error propagates; a `COMPLETED` status returns the
status payload itself when it carries a result field and otherwise
GETs the result URL once, falling back to the status payload when
that GET fails with 422 or 404; a `FAILED` status throws with the
upstream error text (or `Unknown error` when that text is falsy); any
other status waits and loops. -/
def pollLoop (t : Nat → Outcome) (statusBasePath requestId : String) :
    Nat → Nat → List Call × ExecResult
  | 0, _ => ([], ExecResult.outOfFuel)
  | fuel + 1, k =>
    let statusCall : Call := ⟨"GET", statusUrlOf statusBasePath requestId⟩
    let resultCall : Call := ⟨"GET", resultUrlOf statusBasePath requestId⟩
    match t k with
    | Outcome.httpError code =>
      if code = some 405 then
        match t (k + 1) with
        | Outcome.ok resultResponse =>
          if resultResponse.video || resultResponse.images || resultResponse.output then
            ([statusCall, resultCall], ExecResult.success resultResponse)
          else
            let rest := pollLoop t statusBasePath requestId fuel (k + 2)
            (statusCall :: resultCall :: rest.1, rest.2)
        | Outcome.httpError code2 =>
          if code2 = some 404 ∨ code2 = some 422 then
            let rest := pollLoop t statusBasePath requestId fuel (k + 2)
            (statusCall :: resultCall :: rest.1, rest.2)
          else
            ([statusCall, resultCall], ExecResult.transportError code2)
      else
        ([statusCall], ExecResult.transportError code)
    | Outcome.ok statusResponse =>
      if statusResponse.status = some "COMPLETED" then
        if statusResponse.images || statusResponse.video || statusResponse.output then
          ([statusCall], ExecResult.success statusResponse)
        else
          match t (k + 1) with
          | Outcome.ok resultResponse =>
            ([statusCall, resultCall], ExecResult.success resultResponse)
          | Outcome.httpError code =>
            if code = some 422 ∨ code = some 404 then
              ([statusCall, resultCall], ExecResult.success statusResponse)
            else
              ([statusCall, resultCall], ExecResult.transportError code)
      else if statusResponse.status = some "FAILED" then
        ([statusCall],
          ExecResult.failure ("Async request failed: " ++
            (match statusResponse.error with
             | some e => if e = "" then "Unknown error" else e
             | none => "Unknown error")))
      else
        let rest := pollLoop t statusBasePath requestId fuel (k + 1)
        (statusCall :: rest.1, rest.2)

/-- JS falsiness of the extracted `request_id` string value: absent,
null, or the empty string. -/
def falsyId : Option String → Bool
  | none => true
  | some s => s = ""

/-- Model of `BaseFalModel.executeAsync` after credential resolution:
reject configurations without async support, POST the submission to
`{asyncBase}{endpoint}` (HTTP call index 0 of the transport oracle),
fail fatally when the submission response has no truthy `request_id`,
otherwise derive the status base path from the endpoint once and run
the polling loop.  Returns the ordered list of HTTP calls made and
the terminal result. -/
def executeAsync (config : ModelConfig) (t : Nat → Outcome) (fuel : Nat) :
    List Call × ExecResult :=
  if config.supportsAsync = false then
    ([], ExecResult.failure
      ("Model " ++ config.displayName ++ " does not support asynchronous requests"))
  else
    let submitCall : Call := ⟨"POST", asyncBaseUrl ++ config.endpoint⟩
    match t 0 with
    | Outcome.httpError code => ([submitCall], ExecResult.transportError code)
    | Outcome.ok submitResponse =>
      if falsyId submitResponse.request_id then
        ([submitCall], ExecResult.failure "Failed to get request_id from async submission")
      else
        let statusBasePath := getStatusBasePath config.endpoint
        let requestId := submitResponse.request_id.getD ""
        let rest := pollLoop t statusBasePath requestId fuel 1
        (submitCall :: rest.1, rest.2)

/-- Every iteration of the polling loop issues a GET of the status URL
as its first HTTP call. -/
theorem pollLoop_first_call (t : Nat → Outcome) (sbp rid : String) (fuel k : Nat) :
    (pollLoop t sbp rid (fuel + 1) k).1.take 1 = [⟨"GET", statusUrlOf sbp rid⟩] := by
  simp only [pollLoop]
  rcases ht : t k with p | c <;> simp only [ht] <;>
    split_ifs <;>
      first
        | rfl
        | (rcases ht2 : t (k + 1) with q | c2 <;> simp only [ht2] <;>
            first
              | rfl
              | (split_ifs <;> rfl))

/-- The status URL and the plain result URL of one request are always
distinct strings. -/
theorem statusUrl_ne_resultUrl (sbp rid : String) :
    statusUrlOf sbp rid ≠ resultUrlOf sbp rid := by
  intro h
  have hlen := congrArg String.length h
  have h7 : ("/status" : String).length = 7 := rfl
  simp only [statusUrlOf, resultUrlOf, String.length_append, h7] at hlen
  omega

/-- C1: in a poll iteration whose status response is `COMPLETED`, if
the status payload already carries a truthy result field the Result
Payload is produced directly from it — the iteration makes exactly
the one status GET and no result-endpoint fetch; if it carries none,
the iteration makes exactly one additional GET, to the plain result
endpoint, and terminates producing the fetched payload when that GET
succeeds. -/
theorem completed_result_handling
    (t : Nat → Outcome) (sbp rid : String) (fuel k : Nat) (s : ApiPayload)
    (hok : t k = Outcome.ok s)
    (hst : s.status = some "COMPLETED") :
    ((s.images || s.video || s.output) = true →
      pollLoop t sbp rid (fuel + 1) k =
        ([⟨"GET", statusUrlOf sbp rid⟩], ExecResult.success s)) ∧
    ((s.images || s.video || s.output) = false →
      (pollLoop t sbp rid (fuel + 1) k).1 =
        [⟨"GET", statusUrlOf sbp rid⟩, ⟨"GET", resultUrlOf sbp rid⟩] ∧
      ∀ r, t (k + 1) = Outcome.ok r →
        (pollLoop t sbp rid (fuel + 1) k).2 = ExecResult.success r) := by
  constructor
  · intro hres
    simp [pollLoop, hok, hst, hres]
  · intro hres
    constructor
    · simp only [pollLoop, hok, hst, hres]
      rcases ht2 : t (k + 1) with q | c2 <;> simp [ht2] <;> split_ifs <;> rfl
    · intro r hr
      simp [pollLoop, hok, hst, hres, hr]

/-- Transport oracle for the C1 witness: the status poll reports
`COMPLETED` with an embedded truthy `images` field. -/
def transportC1 : Nat → Outcome :=
  fun _ => Outcome.ok ⟨some "abc", some "COMPLETED", none, true, false, false⟩

/-- Witness for C1: with an embedded `images` field, the iteration is
the single status GET and the status payload is the result. -/
theorem completed_result_handling_witness :
    pollLoop transportC1 "/fal-ai/z-image" "abc" 1 0 =
      ([⟨"GET", statusUrlOf "/fal-ai/z-image" "abc"⟩],
        ExecResult.success ⟨some "abc", some "COMPLETED", none, true, false, false⟩) :=
  (completed_result_handling transportC1 "/fal-ai/z-image" "abc" 0 0
    ⟨some "abc", some "COMPLETED", none, true, false, false⟩ rfl rfl).1 rfl

/-- C2: when the status-endpoint GET of a poll iteration fails with
HTTP status 405, the very next HTTP call targets the plain result
endpoint (a URL distinct from the status URL); and when that probe
itself fails with 404 or 422 the loop continues — with fuel left, the
continuation issues at least one further status poll. -/
theorem status405_reroute
    (t : Nat → Outcome) (sbp rid : String) (fuel k : Nat)
    (h405 : t k = Outcome.httpError (some 405)) :
    (∃ rest, (pollLoop t sbp rid (fuel + 1) k).1 =
      ⟨"GET", statusUrlOf sbp rid⟩ :: ⟨"GET", resultUrlOf sbp rid⟩ :: rest) ∧
    statusUrlOf sbp rid ≠ resultUrlOf sbp rid ∧
    (∀ c2, t (k + 1) = Outcome.httpError c2 → (c2 = some 404 ∨ c2 = some 422) →
      pollLoop t sbp rid (fuel + 2) k =
        (⟨"GET", statusUrlOf sbp rid⟩ :: ⟨"GET", resultUrlOf sbp rid⟩ ::
          (pollLoop t sbp rid (fuel + 1) (k + 2)).1,
          (pollLoop t sbp rid (fuel + 1) (k + 2)).2) ∧
      (pollLoop t sbp rid (fuel + 1) (k + 2)).1.take 1 =
        [⟨"GET", statusUrlOf sbp rid⟩]) := by
  refine ⟨?_, statusUrl_ne_resultUrl sbp rid, ?_⟩
  · simp only [pollLoop, h405]
    rcases ht2 : t (k + 1) with q | c2 <;> simp only [ht2] <;>
      first
        | exact ⟨_, rfl⟩
        | (split_ifs <;> exact ⟨_, rfl⟩)
  · intro c2 hc2 hin
    refine ⟨?_, pollLoop_first_call t sbp rid fuel (k + 2)⟩
    simp [pollLoop, h405, hc2, hin]

/-- Transport oracle for the C2 witness: every status poll fails with
405 and every probe of the result endpoint fails with 404. -/
def transportC2 : Nat → Outcome :=
  fun k => if k % 2 = 0 then Outcome.httpError (some 405) else Outcome.httpError (some 404)

/-- Witness for C2 at the concrete 405/404 transport: the rerouted
probe is the second call and the continued loop polls the status
endpoint again. -/
theorem status405_reroute_witness :
    (∃ rest, (pollLoop transportC2 "/wan/v2.6" "r1" 1 0).1 =
      ⟨"GET", statusUrlOf "/wan/v2.6" "r1"⟩ :: ⟨"GET", resultUrlOf "/wan/v2.6" "r1"⟩ :: rest) ∧
    statusUrlOf "/wan/v2.6" "r1" ≠ resultUrlOf "/wan/v2.6" "r1" ∧
    (∀ c2, transportC2 1 = Outcome.httpError c2 → (c2 = some 404 ∨ c2 = some 422) →
      pollLoop transportC2 "/wan/v2.6" "r1" 2 0 =
        (⟨"GET", statusUrlOf "/wan/v2.6" "r1"⟩ :: ⟨"GET", resultUrlOf "/wan/v2.6" "r1"⟩ ::
          (pollLoop transportC2 "/wan/v2.6" "r1" 1 2).1,
          (pollLoop transportC2 "/wan/v2.6" "r1" 1 2).2) ∧
      (pollLoop transportC2 "/wan/v2.6" "r1" 1 2).1.take 1 =
        [⟨"GET", statusUrlOf "/wan/v2.6" "r1"⟩]) :=
  status405_reroute transportC2 "/wan/v2.6" "r1" 0 0 rfl

/-- C3: when the submission response carries no usable `request_id`
(absent, null, or the empty string), `executeAsync` fails with the
missing-request-id error having made only the submission POST: no
status or result GET is ever issued. -/
theorem submission_missing_request_id
    (config : ModelConfig) (t : Nat → Outcome) (fuel : Nat) (sub : ApiPayload)
    (hasync : config.supportsAsync = true)
    (hok : t 0 = Outcome.ok sub)
    (hid : sub.request_id = none ∨ sub.request_id = some "") :
    executeAsync config t fuel =
      ([⟨"POST", asyncBaseUrl ++ config.endpoint⟩],
        ExecResult.failure "Failed to get request_id from async submission") := by
  have hf : falsyId sub.request_id = true := by
    rcases hid with h | h <;> simp [falsyId, h]
  simp [executeAsync, hasync, hok, hf]

/-- Transport oracle for the C3 witness: the submission succeeds but
returns no `request_id`. -/
def transportC3 : Nat → Outcome :=
  fun _ => Outcome.ok ⟨none, none, none, false, false, false⟩

/-- Configuration used by the C3 witness. -/
def configC3 : ModelConfig := ⟨"Kling Video", "/fal-ai/kling-video/o1/standard/image-to-video", true⟩

/-- Witness for C3: a submission response with an absent `request_id`
fails immediately after the single POST. -/
theorem submission_missing_request_id_witness :
    executeAsync configC3 transportC3 5 =
      ([⟨"POST", asyncBaseUrl ++ configC3.endpoint⟩],
        ExecResult.failure "Failed to get request_id from async submission") :=
  submission_missing_request_id configC3 transportC3 5
    ⟨none, none, none, false, false, false⟩ rfl rfl (Or.inl rfl)

/-- C5: a poll iteration whose status response is `FAILED` fails
fatally with the single status GET; the message carries the
upstream-reported error text when the `error` field holds a non-empty
string (and indeed contains that text as a substring), and the
generic `Unknown error` text when the field is absent. -/
theorem failed_status_error
    (t : Nat → Outcome) (sbp rid : String) (fuel k : Nat) (s : ApiPayload)
    (hok : t k = Outcome.ok s)
    (hst : s.status = some "FAILED") :
    (∀ e : String, s.error = some e → e ≠ "" →
      pollLoop t sbp rid (fuel + 1) k =
        ([⟨"GET", statusUrlOf sbp rid⟩],
          ExecResult.failure ("Async request failed: " ++ e)) ∧
      e.data <:+: ("Async request failed: " ++ e).data) ∧
    (s.error = none →
      pollLoop t sbp rid (fuel + 1) k =
        ([⟨"GET", statusUrlOf sbp rid⟩],
          ExecResult.failure "Async request failed: Unknown error")) := by
  constructor
  · intro e he hne
    constructor
    · simp [pollLoop, hok, hst, he, hne]
    · exact List.IsSuffix.isInfix (List.suffix_append _ _)
  · intro he
    simp [pollLoop, hok, hst, he]

/-- Transport oracle for the C5 witness: the status poll reports
`FAILED` with the upstream error text `quota exceeded`. -/
def transportC5 : Nat → Outcome :=
  fun _ => Outcome.ok ⟨none, some "FAILED", some "quota exceeded", false, false, false⟩

/-- Witness for C5: the failure message is built from, and contains,
the upstream text `quota exceeded`. -/
theorem failed_status_error_witness :
    pollLoop transportC5 "/fal-ai/bytedance" "r9" 1 0 =
      ([⟨"GET", statusUrlOf "/fal-ai/bytedance" "r9"⟩],
        ExecResult.failure ("Async request failed: " ++ "quota exceeded")) ∧
    ("quota exceeded" : String).data <:+:
      ("Async request failed: " ++ "quota exceeded" : String).data :=
  (failed_status_error transportC5 "/fal-ai/bytedance" "r9" 0 0
    ⟨none, some "FAILED", some "quota exceeded", false, false, false⟩ rfl rfl).1
    "quota exceeded" rfl (by decide)

/-- C7: any transport error of the status GET other than 405
propagates immediately: the iteration ends with that error after the
single status call, with no retry; and inside the 405 probe path any
probe error other than 404 and 422 propagates immediately after the
probe call. -/
theorem transport_error_propagation
    (t : Nat → Outcome) (sbp rid : String) (fuel k : Nat) (c : Option Nat)
    (herr : t k = Outcome.httpError c) :
    (c ≠ some 405 →
      pollLoop t sbp rid (fuel + 1) k =
        ([⟨"GET", statusUrlOf sbp rid⟩], ExecResult.transportError c)) ∧
    (c = some 405 →
      ∀ c2, t (k + 1) = Outcome.httpError c2 → c2 ≠ some 404 → c2 ≠ some 422 →
        pollLoop t sbp rid (fuel + 1) k =
          ([⟨"GET", statusUrlOf sbp rid⟩, ⟨"GET", resultUrlOf sbp rid⟩],
            ExecResult.transportError c2)) := by
  constructor
  · intro hne
    simp [pollLoop, herr, hne]
  · intro h405 c2 hc2 h404 h422
    have hni : ¬(c2 = some 404 ∨ c2 = some 422) := by
      rintro (h | h) <;> [exact h404 h; exact h422 h]
    simp [pollLoop, herr, h405, hc2, hni]

/-- Transport oracle for the C7 witness: the status poll fails with a
500-class error carrying no retryable code. -/
def transportC7 : Nat → Outcome :=
  fun _ => Outcome.httpError (some 500)

/-- Witness for C7: a 500 on the status endpoint propagates at once. -/
theorem transport_error_propagation_witness :
    pollLoop transportC7 "/fal-ai/nano-banana-pro" "r2" 4 0 =
      ([⟨"GET", statusUrlOf "/fal-ai/nano-banana-pro" "r2"⟩],
        ExecResult.transportError (some 500)) := by
  have h := (transport_error_propagation transportC7 "/fal-ai/nano-banana-pro" "r2" 3 0
    (some 500) rfl).1 (by decide)
  exact h

/-- Status payload of a still-running job, as reported between
submission and completion. -/
def pendingPayload : ApiPayload := ⟨none, some "IN_PROGRESS", none, false, false, false⟩

/-- Transport oracle under which every poll reports a still-running
job. -/
def pendingTransport : Nat → Outcome := fun _ => Outcome.ok pendingPayload

/-- C8: the polling loop is unbounded.  Under the always-pending
transport, a run bounded by any fuel `n` performs exactly `n` status
polls and still reaches no terminal state — so for every `n` there is
a response sequence under which the source loop, which has no fuel
bound, performs more than `n` iterations without terminating. -/
theorem polling_unbounded (sbp rid : String) (fuel k : Nat) :
    pollLoop pendingTransport sbp rid fuel k =
      (List.replicate fuel ⟨"GET", statusUrlOf sbp rid⟩, ExecResult.outOfFuel) := by
  induction fuel generalizing k with
  | zero => simp [pollLoop]
  | succ n ih =>
    simp [pollLoop, pendingTransport, pendingPayload, List.replicate_succ, ih (k + 1)]

/-- C9: on the endpoint `/fal-ai/bytedance/z-image/turbo` the z-image
containment trigger fires but its anchored capture fails, and the
function does not fall back to the identity there: the later bytedance
family still applies, so the result is `/fal-ai/bytedance`. -/
theorem getStatusBasePath_trigger_capture_disagree :
    strIncludes "/fal-ai/bytedance/z-image/turbo" "/z-image/" = true ∧
    strStarts "/fal-ai/bytedance/z-image/turbo" "/fal-ai/z-image" = false ∧
    getStatusBasePath "/fal-ai/bytedance/z-image/turbo" = "/fal-ai/bytedance" ∧
    getStatusBasePath "/fal-ai/bytedance/z-image/turbo" ≠ "/fal-ai/bytedance/z-image/turbo" := by
  refine ⟨by decide, by decide, by decide, by decide⟩

end FalAdapter
